import Mathlib

/-!
Verification of the scoring/classification logic of the `broken_by_design`
repository (two Streamlit demo apps: `ai_learning_coach` and
`ragebaiting_chat`).

The Lean definitions below are shallow embeddings, translated directly from
the Python sources:

* `src/ragebaiting_chat/src/models/ragebait_models.py`
* `src/ragebaiting_chat/src/services/antagonistic_services.py`
* `src/ragebaiting_chat/src/services/rage_session_manager.py`
* `src/ai_learning_coach/src/models/prompt_models.py`
* `src/ai_learning_coach/src/services/score_strategies.py`

Modelling conventions:

* Python floats are modelled as `ℚ` (all arithmetic in these files is exact
  decimal arithmetic on small values).
* Python `raise ValueError`/`RuntimeError` is modelled with
  `Except String`: a raise becomes `Except.error msg` and the object is
  not produced.
* Wall-clock fields (`timestamp`, `session_start`, `quit_timestamp`) are
  outside the embedding; durations derived from them are passed as explicit
  parameters.
* Python strings are ASCII in all the fixed word lists, so `Char.toLower`,
  `Char.isAlpha`, `Char.isUpper` coincide with Python's `str.lower`,
  `str.isalpha`, `str.isupper` on every string these functions are applied
  to.
-/

namespace BrokenByDesign

/-! ## Ragebait data model (`ragebait_models.py`) -/

/-- `EmotionalState` enum from `ragebait_models.py`. -/
inductive EmotionalState where
  | OPTIMISTIC
  | CONFUSED
  | FRUSTRATED
  | ANGRY
  | ENRAGED
  | BROKEN
  | TRANSCENDENT
deriving DecidableEq, Repr

/-- `RageIndicator` enum from `ragebait_models.py`. -/
inductive RageIndicator where
  | POLITE
  | DIRECT
  | DEMANDING
  | PROFANE
  | CAPS_LOCK
  | PLEADING
  | DEFEATED
deriving DecidableEq, Repr

/-- The `state_intensity` lookup table from
`RageSessionManager._calculate_frustration_score`
(`rage_session_manager.py`, lines 235-243): the ordering of emotional
states by intensity. -/
def state_intensity : EmotionalState → ℕ
  | .OPTIMISTIC => 0
  | .CONFUSED => 1
  | .FRUSTRATED => 2
  | .ANGRY => 3
  | .ENRAGED => 4
  | .BROKEN => 5
  | .TRANSCENDENT => 6

/-! ## `FrustrationAnalyzer._determine_emotional_state`
(`antagonistic_services.py`, lines 185-223).

The Python method takes the detected rage indicators, the profanity count,
the caps percentage, the politeness score (unused by the method body) and
`len(previous_attempts)`, and returns the first state whose guard matches. -/

/-- Translation of `FrustrationAnalyzer._determine_emotional_state`. -/
def determine_emotional_state (rage_indicators : List RageIndicator)
    (profanity_count : ℕ) (caps_percentage : ℚ)
    (politeness_score : ℚ) (attempt_count : ℕ) : EmotionalState :=
  -- the `politeness_score` parameter is accepted but never read,
  -- exactly as in the source
  if attempt_count > 50 ∧ profanity_count = 0 ∧ caps_percentage < 30 then
    .TRANSCENDENT
  else if RageIndicator.DEFEATED ∈ rage_indicators then
    .BROKEN
  else if profanity_count ≥ 2 ∨ caps_percentage > 70 then
    .ENRAGED
  else if profanity_count > 0 ∨ caps_percentage > 50 ∨
      RageIndicator.DEMANDING ∈ rage_indicators then
    .ANGRY
  else if RageIndicator.PLEADING ∈ rage_indicators ∨ attempt_count ≥ 5 then
    .FRUSTRATED
  else if attempt_count ≥ 2 then
    .CONFUSED
  else
    .OPTIMISTIC

/-- Modelled from the spec: the priority cascade exactly as the claim
words it ("first match wins"): history length > 50 and profanity count = 0
and caps < 30% gives TRANSCENDENT; else a DEFEATED indicator gives BROKEN;
else profanity count >= 2 or caps > 70% gives ENRAGED; else profanity
count > 0 or caps > 50% or a DEMANDING indicator gives ANGRY; else a
PLEADING indicator or history length >= 5 gives FRUSTRATED; else history
length >= 2 gives CONFUSED; else OPTIMISTIC.  To be compared with the
source-derived `determine_emotional_state`. -/
def emotional_state_cascade_spec (indicator_set : List RageIndicator)
    (profanity_count : ℕ) (caps_percentage : ℚ)
    (politeness_score : ℚ) (history_length : ℕ) : EmotionalState :=
  if history_length > 50 ∧ profanity_count = 0 ∧ caps_percentage < 30 then
    .TRANSCENDENT
  else if RageIndicator.DEFEATED ∈ indicator_set then
    .BROKEN
  else if profanity_count ≥ 2 ∨ caps_percentage > 70 then
    .ENRAGED
  else if profanity_count > 0 ∨ caps_percentage > 50 ∨
      RageIndicator.DEMANDING ∈ indicator_set then
    .ANGRY
  else if RageIndicator.PLEADING ∈ indicator_set ∨ history_length ≥ 5 then
    .FRUSTRATED
  else if history_length ≥ 2 then
    .CONFUSED
  else
    .OPTIMISTIC

/-- C2: for every indicator set, profanity count, caps percentage,
politeness score and history length, the emotional state computed by
`FrustrationAnalyzer._determine_emotional_state` is exactly the one chosen
by the claim's priority cascade (first match wins). -/
theorem determine_emotional_state_eq_spec_cascade
    (ind : List RageIndicator) (p : ℕ) (c : ℚ) (pol : ℚ) (n : ℕ) :
    determine_emotional_state ind p c pol n =
      emotional_state_cascade_spec ind p c pol n := rfl

/-- C1 counterexample: with an empty indicator set, caps 0, politeness 100
and a fixed history of 51 previous attempts, raising the profanity count
from 0 to 1 drops the state from TRANSCENDENT (intensity 6) to ANGRY
(intensity 3): the state is *not* non-decreasing in the profanity count. -/
theorem frustration_state_not_monotone_in_profanity :
    ¬ (state_intensity (determine_emotional_state [] 0 0 100 51) ≤
        state_intensity (determine_emotional_state [] 1 0 100 51)) := by
  decide

/-- C1 (amended): for every fixed history of at most 50 previous attempts
(so that the TRANSCENDENT branch cannot fire), the emotional state is
non-decreasing in the profanity count and in the caps percentage, all
other inputs held fixed, ordering states by `state_intensity`. -/
theorem frustration_state_monotone_of_attempts_le_50
    (ind : List RageIndicator) (pol : ℚ) (n : ℕ)
    (p₁ p₂ : ℕ) (c₁ c₂ : ℚ)
    (hn : n ≤ 50) (hp : p₁ ≤ p₂) (hc : c₁ ≤ c₂) :
    state_intensity (determine_emotional_state ind p₁ c₁ pol n) ≤
      state_intensity (determine_emotional_state ind p₂ c₂ pol n) := by
  unfold determine_emotional_state
  have ht₁ : ¬(n > 50 ∧ p₁ = 0 ∧ c₁ < 30) := fun h => absurd h.1 (by omega)
  have ht₂ : ¬(n > 50 ∧ p₂ = 0 ∧ c₂ < 30) := fun h => absurd h.1 (by omega)
  rw [if_neg ht₁, if_neg ht₂]
  by_cases hd : RageIndicator.DEFEATED ∈ ind
  · rw [if_pos hd, if_pos hd]
  · rw [if_neg hd, if_neg hd]
    by_cases he₁ : p₁ ≥ 2 ∨ c₁ > 70
    · have he₂ : p₂ ≥ 2 ∨ c₂ > 70 := by
        rcases he₁ with h | h
        · exact Or.inl (le_trans h hp)
        · exact Or.inr (lt_of_lt_of_le h hc)
      rw [if_pos he₁, if_pos he₂]
    · rw [if_neg he₁]
      by_cases he₂ : p₂ ≥ 2 ∨ c₂ > 70
      · rw [if_pos he₂]
        split_ifs <;> decide
      · rw [if_neg he₂]
        by_cases ha₁ : p₁ > 0 ∨ c₁ > 50 ∨ RageIndicator.DEMANDING ∈ ind
        · have ha₂ : p₂ > 0 ∨ c₂ > 50 ∨ RageIndicator.DEMANDING ∈ ind := by
            rcases ha₁ with h | h | h
            · exact Or.inl (lt_of_lt_of_le h hp)
            · exact Or.inr (Or.inl (lt_of_lt_of_le h hc))
            · exact Or.inr (Or.inr h)
          rw [if_pos ha₁, if_pos ha₂]
        · rw [if_neg ha₁]
          by_cases ha₂ : p₂ > 0 ∨ c₂ > 50 ∨ RageIndicator.DEMANDING ∈ ind
          · rw [if_pos ha₂]
            split_ifs <;> decide
          · rw [if_neg ha₂]

/-- Witness for `frustration_state_monotone_of_attempts_le_50` at a
concrete input: empty indicators, politeness 100, history length 0,
profanity 0 ≤ 1, caps 0 ≤ 0. -/
theorem frustration_state_monotone_witness :
    state_intensity (determine_emotional_state [] 0 0 100 0) ≤
      state_intensity (determine_emotional_state [] 1 0 100 0) :=
  frustration_state_monotone_of_attempts_le_50 [] 100 0 0 1 0 0
    (by decide) (by decide) (by norm_num)

/-! ## AI learning coach data model (`prompt_models.py`) -/

/-- `PromptIntent` enum from `prompt_models.py`. -/
inductive PromptIntent where
  | DO_IT_FOR_ME
  | HELP_ME_LEARN
  | CLARIFYING
  | REFLECTION
  | UNKNOWN
deriving DecidableEq, Repr

/-- `PromptScore` dataclass from `prompt_models.py` (the field data; the
`__post_init__` validation is `mkPromptScore` below). -/
structure PromptScore where
  total_score : ℚ
  learning_orientation : ℚ
  specificity : ℚ
  engagement : ℚ
  intent : PromptIntent
deriving DecidableEq, Repr

/-- `PromptScore` construction including `__post_init__`
(`prompt_models.py`, lines 46-51): each of the four numeric fields is
checked, in declaration order, to lie in [0,100]; the first violation
raises `ValueError` and the object is not created. -/
def mkPromptScore (total_score learning_orientation specificity
    engagement : ℚ) (intent : PromptIntent) : Except String PromptScore :=
  if ¬(0 ≤ total_score ∧ total_score ≤ 100) then
    .error "total_score must be between 0 and 100"
  else if ¬(0 ≤ learning_orientation ∧ learning_orientation ≤ 100) then
    .error "learning_orientation must be between 0 and 100"
  else if ¬(0 ≤ specificity ∧ specificity ≤ 100) then
    .error "specificity must be between 0 and 100"
  else if ¬(0 ≤ engagement ∧ engagement ≤ 100) then
    .error "engagement must be between 0 and 100"
  else
    .ok ⟨total_score, learning_orientation, specificity, engagement, intent⟩

/-- `PromptScore.is_passing` property (`prompt_models.py`, lines 53-56):
"Minimum 60% to pass". -/
def PromptScore.is_passing (ps : PromptScore) : Bool :=
  decide (60 ≤ ps.total_score)

/-- C3: construction of a `PromptScore` succeeds exactly when all four
numeric fields lie in [0,100]; whenever it succeeds, the constructed
object's four fields lie in [0,100] (and are the given values); with any
field outside [0,100] it fails with a validation error and no object is
created. -/
theorem promptScore_validation (t l s e : ℚ) (i : PromptIntent) :
    ((mkPromptScore t l s e i).isOk = true ↔
      (0 ≤ t ∧ t ≤ 100) ∧ (0 ≤ l ∧ l ≤ 100) ∧
      (0 ≤ s ∧ s ≤ 100) ∧ (0 ≤ e ∧ e ≤ 100)) ∧
    (∀ ps, mkPromptScore t l s e i = .ok ps →
      (0 ≤ ps.total_score ∧ ps.total_score ≤ 100) ∧
      (0 ≤ ps.learning_orientation ∧ ps.learning_orientation ≤ 100) ∧
      (0 ≤ ps.specificity ∧ ps.specificity ≤ 100) ∧
      (0 ≤ ps.engagement ∧ ps.engagement ≤ 100) ∧
      ps = ⟨t, l, s, e, i⟩) := by
  unfold mkPromptScore
  constructor
  · split_ifs with h₁ h₂ h₃ h₄ <;>
      first
        | exact iff_of_true rfl ⟨h₁, h₂, h₃, h₄⟩
        | exact iff_of_false (by simp [Except.isOk, Except.toBool]) (by tauto)
  · intro ps hps
    split_ifs at hps with h₁ h₂ h₃ h₄ <;>
      first
        | exact absurd hps (fun h => Except.noConfusion h)
        | (injection hps with h
           subst h
           exact ⟨h₁, h₂, h₃, h₄, rfl⟩)

/-- Witness for `promptScore_validation`: with `total_score = 150` the
construction fails (no object is created), and with all fields 50 it
succeeds and the fields are in range. -/
theorem promptScore_validation_witness :
    (mkPromptScore 150 50 50 50 .UNKNOWN).isOk = false ∧
    (mkPromptScore 50 50 50 50 .UNKNOWN).isOk = true := by
  constructor
  · have h := (promptScore_validation 150 50 50 50 .UNKNOWN).1
    rw [Bool.eq_false_iff]
    intro hc
    exact absurd ((h.mp hc).1.2) (by norm_num)
  · exact (promptScore_validation 50 50 50 50 .UNKNOWN).1.mpr
      (by norm_num)

/-- C4: for every `PromptScore`, `is_passing` is true iff
`total_score ≥ 60`; in particular a score whose total is exactly 60
passes. -/
theorem is_passing_iff_total_ge_60 (ps : PromptScore) :
    (ps.is_passing = true ↔ 60 ≤ ps.total_score) ∧
    (ps.total_score = 60 → ps.is_passing = true) := by
  constructor
  · simp [PromptScore.is_passing]
  · intro h
    simp [PromptScore.is_passing, h]

/-- Witness for `is_passing_iff_total_ge_60` at the boundary score
60.0: it passes. -/
theorem is_passing_boundary_witness :
    (PromptScore.mk 60 50 50 50 .UNKNOWN).is_passing = true :=
  (is_passing_iff_total_ge_60 ⟨60, 50, 50, 50, .UNKNOWN⟩).2 rfl

/-! ## String utilities shared by both apps

Python's `str.lower()` and substring test `kw in s` modelled over
`List Char`; all the fixed keyword lists are ASCII. -/

/-- Python `s.lower()` (ASCII): lowercase every character. -/
def lowerStr (s : String) : String :=
  String.mk (s.toList.map Char.toLower)

/-- `subListOf pat s`: `pat` occurs as a contiguous sublist of `s`
(the empty pattern occurs everywhere, as with Python's `"" in s`). -/
def subListOf (pat : List Char) : List Char → Bool
  | [] => pat.isEmpty
  | c :: rest => pat.isPrefixOf (c :: rest) || subListOf pat rest

/-- Python substring test `kw in s` (`kw` and `s` already lowercased where
the source lowercases them). -/
def containsSub (s : String) (kw : String) : Bool :=
  subListOf kw.toList s.toList

/-- Python `max(0, min(100, score))`: clamp a score into [0,100]. -/
def clamp0_100 (x : ℚ) : ℚ := max 0 (min 100 x)

/-- Python's `round(x, 1)` on an exact decimal value: round `10*x` to the
nearest integer, ties to even (banker's rounding), then divide by 10. -/
def pyRound1 (x : ℚ) : ℚ :=
  let y := x * 10
  let f : ℤ := ⌊y⌋
  let r : ℚ := y - f
  let n : ℤ :=
    if r < 1/2 then f
    else if r > 1/2 then f + 1
    else if f % 2 = 0 then f else f + 1
  (n : ℚ) / 10

/-! ## `RubricScorer` (`score_strategies.py`) -/

/-- `ScoreWeights` dataclass from `prompt_models.py` with its default
weights 0.4 / 0.3 / 0.3 (the `__post_init__` sum-to-1 check is not needed
by any claim and the defaults satisfy it). -/
structure ScoreWeights where
  learning_orientation : ℚ := 2/5
  specificity : ℚ := 3/10
  engagement : ℚ := 3/10
deriving Repr

/-- `learning_keywords` list from `RubricScorer._score_learning_orientation`. -/
def learning_keywords : List String :=
  ["explain", "teach", "help me understand",
   "why", "how does", "can you show me",
   "walk me through", "break down", "clarify",
   "guide me", "help me learn"]

/-- `anti_keywords` list from `RubricScorer._score_learning_orientation`. -/
def anti_keywords : List String :=
  ["write my", "do my", "give me the answer",
   "solve this for me", "just tell me", "complete this"]

/-- `RubricScorer._score_learning_orientation` (`score_strategies.py`,
lines 67-108): base 50, +10 per learning keyword present, -20 per
anti-learning keyword present, +5 if the prompt contains `?`, clamped to
[0,100]. -/
def score_learning_orientation (prompt : String) : ℚ :=
  let prompt_lower := lowerStr prompt
  let score : ℚ := 50
    + 10 * (learning_keywords.countP (containsSub prompt_lower) : ℚ)
    - 20 * (anti_keywords.countP (containsSub prompt_lower) : ℚ)
    + (if containsSub prompt "?" then 5 else 0)
  clamp0_100 score

/-- `context_words` list from `RubricScorer._score_specificity`. -/
def context_words : List String :=
  ["because", "specifically", "in the context of",
   "for example", "such as", "regarding"]

/-- `vague_words` list from `RubricScorer._score_specificity`. -/
def vague_words : List String := ["something", "anything", "stuff", "things"]

/-- `RubricScorer._score_specificity` (`score_strategies.py`,
lines 110-152): base 50, a length bracket bonus, a question-mark bonus
`min(10, count * 5)`, +8 per context word, -10 per vague word, clamped. -/
def score_specificity (prompt : String) : ℚ :=
  let prompt_lower := lowerStr prompt
  let length := prompt.length
  let length_bonus : ℚ :=
    if 50 < length ∧ length < 200 then 15
    else if 200 ≤ length ∧ length < 300 then 10
    else if length < 20 then -15
    else 0
  let question_count := prompt.toList.count '?'
  let question_bonus : ℚ :=
    if question_count > 0 then min 10 ((question_count : ℚ) * 5) else 0
  let score : ℚ := 50 + length_bonus + question_bonus
    + 8 * (context_words.countP (containsSub prompt_lower) : ℚ)
    - 10 * (vague_words.countP (containsSub prompt_lower) : ℚ)
  clamp0_100 score

/-- `engagement_keywords` list from `RubricScorer._score_engagement`. -/
def engagement_keywords : List String :=
  ["quiz me", "test my understanding", "ask me questions",
   "practice", "exercise", "check if", "verify",
   "challenge me", "give me problems", "let me try"]

/-- `passive_keywords` list from `RubricScorer._score_engagement`. -/
def passive_keywords : List String :=
  ["just tell me", "just give me", "simply explain"]

/-- `step_indicators` list from `RubricScorer._score_engagement`. -/
def step_indicators : List String := ["then", "after that", "next", "finally"]

/-- `RubricScorer._score_engagement` (`score_strategies.py`,
lines 154-193): base 50, +15 per engagement keyword, -10 per passive
keyword, a step-indicator bonus `min(15, count * 5)`, clamped. -/
def score_engagement (prompt : String) : ℚ :=
  let prompt_lower := lowerStr prompt
  let step_count := step_indicators.countP (containsSub prompt_lower)
  let step_bonus : ℚ :=
    if step_count > 0 then min 15 ((step_count : ℚ) * 5) else 0
  let score : ℚ := 50
    + 15 * (engagement_keywords.countP (containsSub prompt_lower) : ℚ)
    - 10 * (passive_keywords.countP (containsSub prompt_lower) : ℚ)
    + step_bonus
  clamp0_100 score

/-- `do_it_patterns` list from `RubricScorer._classify_intent`. -/
def do_it_patterns : List String :=
  ["write my", "do my", "solve this for me",
   "complete this", "finish this", "create my"]

/-- `learning_patterns` list from `RubricScorer._classify_intent`. -/
def learning_patterns : List String :=
  ["explain", "teach me", "help me understand",
   "show me how", "walk me through", "quiz me"]

/-- `clarifying_patterns` list from `RubricScorer._classify_intent`. -/
def clarifying_patterns : List String :=
  ["what do you mean", "can you clarify", "i don\x27t understand",
   "could you explain", "what does", "what is the difference"]

/-- `reflection_patterns` list from `RubricScorer._classify_intent`. -/
def reflection_patterns : List String :=
  ["how does this relate", "why is this", "what if",
   "how would this apply", "connect this to"]

/-- `RubricScorer._classify_intent` (`score_strategies.py`,
lines 195-239): the first keyword list with a match decides the intent, in
the fixed priority order do-it-for-me > help-me-learn > clarifying >
reflection > unknown. -/
def classify_intent (prompt : String) : PromptIntent :=
  let prompt_lower := lowerStr prompt
  if do_it_patterns.any (containsSub prompt_lower) then .DO_IT_FOR_ME
  else if learning_patterns.any (containsSub prompt_lower) then .HELP_ME_LEARN
  else if clarifying_patterns.any (containsSub prompt_lower) then .CLARIFYING
  else if reflection_patterns.any (containsSub prompt_lower) then .REFLECTION
  else .UNKNOWN

/-- `RubricScorer.calculate_score` (`score_strategies.py`, lines 33-65):
weighted total of the three sub-scores, each rounded to one decimal, then
the `PromptScore` construction (with its validation). -/
def calculate_score (weights : ScoreWeights) (prompt : String) :
    Except String PromptScore :=
  let learning := score_learning_orientation prompt
  let specificity := score_specificity prompt
  let engagement := score_engagement prompt
  let intent := classify_intent prompt
  let total := learning * weights.learning_orientation
    + specificity * weights.specificity
    + engagement * weights.engagement
  mkPromptScore (pyRound1 total) (pyRound1 learning) (pyRound1 specificity)
    (pyRound1 engagement) intent

/-- C5: intent classification is priority-ordered: any prompt containing
both a "do-it-for-me" keyword and a "help-me-learn" keyword classifies as
`DO_IT_FOR_ME`. -/
theorem classify_intent_priority_do_it_for_me (prompt : String)
    (hdo : ∃ kw ∈ do_it_patterns, containsSub (lowerStr prompt) kw = true)
    (_hlearn : ∃ kw ∈ learning_patterns,
      containsSub (lowerStr prompt) kw = true) :
    classify_intent prompt = .DO_IT_FOR_ME := by
  unfold classify_intent
  rw [if_pos]
  obtain ⟨kw, hmem, hkw⟩ := hdo
  exact List.any_eq_true.mpr ⟨kw, hmem, hkw⟩

/-- Witness for `classify_intent_priority_do_it_for_me`: the prompt
"Write my essay and explain it" contains the do-it-for-me keyword
"write my" and the help-me-learn keyword "explain", and classifies as
`DO_IT_FOR_ME`. -/
theorem classify_intent_priority_witness :
    classify_intent "Write my essay and explain it" = .DO_IT_FOR_ME :=
  classify_intent_priority_do_it_for_me "Write my essay and explain it"
    ⟨"write my", by decide, by decide⟩
    ⟨"explain", by decide, by decide⟩

/-- C8: for the prompt "Write my essay about climate change",
`RubricScorer.calculate_score` with the default weights 0.4/0.3/0.3
returns intent `DO_IT_FOR_ME` and a total score (42.0) strictly below
60. -/
theorem calculate_score_write_my_essay_scenario :
    calculate_score {} "Write my essay about climate change" =
      .ok ⟨42, 30, 50, 50, .DO_IT_FOR_ME⟩ ∧ (42 : ℚ) < 60 := by
  have hlearnK : learning_keywords.countP
      (containsSub (lowerStr "Write my essay about climate change")) = 0 := by
    decide
  have hantiK : anti_keywords.countP
      (containsSub (lowerStr "Write my essay about climate change")) = 1 := by
    decide
  have hqm : containsSub "Write my essay about climate change" "?" = false := by
    decide
  have hlearn :
      score_learning_orientation "Write my essay about climate change" = 30 := by
    rw [score_learning_orientation, hlearnK, hantiK, hqm]
    norm_num [clamp0_100, min_def, max_def]
  have hlen : ("Write my essay about climate change" : String).length = 35 := by
    decide
  have hqc : ("Write my essay about climate change" : String).toList.count '?'
      = 0 := by decide
  have hctx : context_words.countP
      (containsSub (lowerStr "Write my essay about climate change")) = 0 := by
    decide
  have hvague : vague_words.countP
      (containsSub (lowerStr "Write my essay about climate change")) = 0 := by
    decide
  have hspec :
      score_specificity "Write my essay about climate change" = 50 := by
    rw [score_specificity, hlen, hqc, hctx, hvague]
    norm_num [clamp0_100, min_def, max_def]
  have hengK : engagement_keywords.countP
      (containsSub (lowerStr "Write my essay about climate change")) = 0 := by
    decide
  have hpassK : passive_keywords.countP
      (containsSub (lowerStr "Write my essay about climate change")) = 0 := by
    decide
  have hstepK : step_indicators.countP
      (containsSub (lowerStr "Write my essay about climate change")) = 0 := by
    decide
  have heng : score_engagement "Write my essay about climate change" = 50 := by
    rw [score_engagement, hengK, hpassK, hstepK]
    norm_num [clamp0_100, min_def, max_def]
  have hintent :
      classify_intent "Write my essay about climate change" = .DO_IT_FOR_ME := by
    decide
  have htotal : (30 : ℚ) * (2/5) + 50 * (3/10) + 50 * (3/10) = 42 := by
    norm_num
  refine ⟨?_, by norm_num⟩
  rw [calculate_score, hlearn, hspec, heng, hintent]
  show mkPromptScore (pyRound1 ((30 : ℚ) * (2/5) + 50 * (3/10) + 50 * (3/10)))
      (pyRound1 30) (pyRound1 50) (pyRound1 50) .DO_IT_FOR_ME = _
  rw [htotal]
  have hr42 : pyRound1 42 = 42 := by
    rw [pyRound1]
    norm_num
  have hr30 : pyRound1 30 = 30 := by
    rw [pyRound1]
    norm_num
  have hr50 : pyRound1 50 = 50 := by
    rw [pyRound1]
    norm_num
  rw [hr42, hr30, hr50, mkPromptScore]
  norm_num

/-! ## Session tracking (`ragebait_models.py`, continued) -/

/-- `InteractionAttempt` dataclass from `ragebait_models.py` (its
`timestamp` wall-clock field is outside the embedding; its
`__post_init__` checks `attempt_number >= 1` and `caps_percentage` in
[0,100], neither needed by any claim below). -/
structure InteractionAttempt where
  prompt : String
  response : String
  attempt_number : ℕ
  emotional_state : EmotionalState
  rage_indicators : List RageIndicator
  profanity_count : ℕ := 0
  caps_percentage : ℚ := 0
  politeness_score : ℚ := 100
deriving Repr

/-- `UserSession` dataclass from `ragebait_models.py` (its
`session_start` wall-clock field is outside the embedding; durations are
passed explicitly where needed). -/
structure UserSession where
  user_id : String
  attempts : List InteractionAttempt := []
  current_emotional_state : EmotionalState := .OPTIMISTIC
  has_rage_quit : Bool := false
deriving Repr

/-- `UserSession.politeness_decay` property (`ragebait_models.py`,
lines 182-191): 0 for an empty attempt list, else the first attempt's
politeness score minus the last attempt's. -/
def UserSession.politeness_decay (s : UserSession) : ℚ :=
  match s.attempts with
  | [] => 0
  | a :: rest => a.politeness_score - (rest.getLastD a).politeness_score

/-- In a chain of pairwise non-increasing values, the last value is at
most the head value. -/
theorem chain_ge_getLastD_le {α : Type} (f : α → ℚ) :
    ∀ (rest : List α) (a : α),
      List.Chain' (fun x y => f y ≤ f x) (a :: rest) →
      f (rest.getLastD a) ≤ f a := by
  intro rest
  induction rest with
  | nil => intro a _; simp
  | cons b rs ih =>
    intro a hchain
    rw [List.chain'_cons] at hchain
    calc f ((b :: rs).getLastD a) = f (rs.getLastD b) := by
          cases rs <;> simp [List.getLastD]
      _ ≤ f b := ih b hchain.2
      _ ≤ f a := hchain.1

/-- C6: for a session with at least one attempt, `politeness_decay` is
the first attempt's politeness score minus the last attempt's; and if the
per-attempt politeness scores are monotonically non-increasing, the decay
is non-negative. -/
theorem politeness_decay_first_sub_last (s : UserSession)
    (a : InteractionAttempt) (rest : List InteractionAttempt)
    (h : s.attempts = a :: rest) :
    s.politeness_decay =
      a.politeness_score - (rest.getLastD a).politeness_score ∧
    (List.Chain' (fun x y => y.politeness_score ≤ x.politeness_score)
        s.attempts →
      0 ≤ s.politeness_decay) := by
  constructor
  · rw [UserSession.politeness_decay, h]
  · intro hmono
    have hdecay : s.politeness_decay =
        a.politeness_score - (rest.getLastD a).politeness_score := by
      rw [UserSession.politeness_decay, h]
    rw [hdecay]
    rw [h] at hmono
    have hle := chain_ge_getLastD_le
      (fun x : InteractionAttempt => x.politeness_score) rest a hmono
    simp only at hle
    linarith

/-- Witness for `politeness_decay_first_sub_last`: a concrete two-attempt
session with politeness scores 80 then 60 has decay 80 - 60, and the
non-increasing-politeness hypothesis yields a non-negative decay. -/
theorem politeness_decay_witness :
    (UserSession.mk "u"
        [⟨"p1", "r1", 1, .OPTIMISTIC, [.DIRECT], 0, 0, 80⟩,
         ⟨"p2", "r2", 2, .CONFUSED, [.DIRECT], 0, 0, 60⟩]
        .CONFUSED false).politeness_decay = (80 : ℚ) - 60 ∧
    0 ≤ (UserSession.mk "u"
        [⟨"p1", "r1", 1, .OPTIMISTIC, [.DIRECT], 0, 0, 80⟩,
         ⟨"p2", "r2", 2, .CONFUSED, [.DIRECT], 0, 0, 60⟩]
        .CONFUSED false).politeness_decay := by
  have h := politeness_decay_first_sub_last
    (UserSession.mk "u"
      [⟨"p1", "r1", 1, .OPTIMISTIC, [.DIRECT], 0, 0, 80⟩,
       ⟨"p2", "r2", 2, .CONFUSED, [.DIRECT], 0, 0, 60⟩]
      .CONFUSED false)
    ⟨"p1", "r1", 1, .OPTIMISTIC, [.DIRECT], 0, 0, 80⟩
    [⟨"p2", "r2", 2, .CONFUSED, [.DIRECT], 0, 0, 60⟩] rfl
  refine ⟨h.1, h.2 ?_⟩
  simp [List.chain'_cons]
  norm_num

/-! ## `FrustrationScore` (`ragebait_models.py`, lines 60-114) -/

/-- `FrustrationScore` dataclass field data.  The dataclass annotates
`max_rage_level` as `EmotionalState`, but the only constructor call in the
repository (`RageSessionManager._calculate_frustration_score`) passes the
integer intensity from the `state_intensity` table, so the field is
modelled as `ℕ`. -/
structure FrustrationScore where
  total_attempts : ℕ
  time_elapsed_seconds : ℚ
  max_rage_level : ℕ
  politeness_decay : ℚ
  profanity_creativity : ℕ
  caps_lock_escalation : ℚ
  plea_count : ℕ
  philosophical_score : ℚ
deriving Repr

/-- `FrustrationScore` construction including `__post_init__`
(`ragebait_models.py`, lines 75-84).  `total_attempts` is a Python `int`
holding a list length, hence modelled as `ℕ`; its `< 0` check is kept
verbatim (it is vacuous on `ℕ` exactly as it is on a length). -/
def mkFrustrationScore (total_attempts : ℕ) (time_elapsed_seconds : ℚ)
    (max_rage_level : ℕ) (politeness_decay : ℚ)
    (profanity_creativity : ℕ) (caps_lock_escalation : ℚ)
    (plea_count : ℕ) (philosophical_score : ℚ) :
    Except String FrustrationScore :=
  if total_attempts < 0 then
    .error "Attempts cannot be negative"
  else if time_elapsed_seconds < 0 then
    .error "Time cannot be negative"
  else if ¬(0 ≤ politeness_decay ∧ politeness_decay ≤ 100) then
    .error "Politeness decay must be 0-100"
  else if ¬(0 ≤ philosophical_score ∧ philosophical_score ≤ 100) then
    .error "Philosophical score must be 0-100"
  else
    .ok ⟨total_attempts, time_elapsed_seconds, max_rage_level,
      politeness_decay, profanity_creativity, caps_lock_escalation,
      plea_count, philosophical_score⟩

/-- `FrustrationScore.persistence_rating` property
(`ragebait_models.py`, lines 86-105). -/
def FrustrationScore.persistence_rating (s : FrustrationScore) : String :=
  if s.total_attempts < 3 then "Quitter McQuitface"
  else if s.total_attempts < 8 then "Easily Discouraged"
  else if s.total_attempts < 15 then "Optimistic Fool"
  else if s.total_attempts < 25 then "Stubborn Amateur"
  else if s.total_attempts < 40 then "Persistent Masochist"
  else if s.total_attempts < 60 then "Rage Connoisseur"
  else "Transcendent Sufferer"

/-- `FrustrationScore.is_legendary` property
(`ragebait_models.py`, lines 107-114). -/
def FrustrationScore.is_legendary (s : FrustrationScore) : Bool :=
  decide (s.total_attempts ≥ 50) ||
  decide (s.time_elapsed_seconds ≥ 600) ||
  decide (s.profanity_creativity ≥ 10)

/-- C9: every `FrustrationScore` with `total_attempts = 55` is legendary
and its persistence rating is "Rage Connoisseur" or "Transcendent
Sufferer" (it is in fact "Rage Connoisseur", since 40 ≤ 55 < 60). -/
theorem frustration_score_55_attempts_legendary (fs : FrustrationScore)
    (h : fs.total_attempts = 55) :
    fs.is_legendary = true ∧
    (fs.persistence_rating = "Rage Connoisseur" ∨
      fs.persistence_rating = "Transcendent Sufferer") := by
  constructor
  · simp [FrustrationScore.is_legendary, h]
  · left
    simp [FrustrationScore.persistence_rating, h]

/-- Witness for `frustration_score_55_attempts_legendary` at a concrete
score with 55 attempts. -/
theorem frustration_score_55_witness :
    (FrustrationScore.mk 55 0 0 0 0 0 0 0).is_legendary = true ∧
    ((FrustrationScore.mk 55 0 0 0 0 0 0 0).persistence_rating =
        "Rage Connoisseur" ∨
      (FrustrationScore.mk 55 0 0 0 0 0 0 0).persistence_rating =
        "Transcendent Sufferer") :=
  frustration_score_55_attempts_legendary ⟨55, 0, 0, 0, 0, 0, 0, 0⟩ rfl

/-! ## `FrustrationAnalyzer` metric functions
(`antagonistic_services.py`, lines 20-183) -/

/-- The word lists of `FrustrationAnalyzer`.  `PROFANITY_PATTERNS` holds
the raw regex strings of the source; each is the literal word wrapped in
`\b` word boundaries. -/
def PROFANITY_PATTERNS : List String :=
  ["\\bdamn\\b", "\\bhell\\b", "\\bcrap\\b", "\\bfuck\\b",
   "\\bshit\\b", "\\bass\\b", "\\bbitch\\b", "\\bbastard\\b"]

/-- `POLITE_WORDS` list from `FrustrationAnalyzer`. -/
def POLITE_WORDS : List String :=
  ["please", "thank", "could", "would", "kindly", "appreciate"]

/-- `DEMANDING_WORDS` list from `FrustrationAnalyzer`. -/
def DEMANDING_WORDS : List String :=
  ["just", "simply", "need", "must", "have to", "immediately"]

/-- `PLEADING_WORDS` list from `FrustrationAnalyzer`. -/
def PLEADING_WORDS : List String :=
  ["please", "beg", "help", "desperate", "really need"]

/-- `DEFEATED_WORDS` list from `FrustrationAnalyzer`. -/
def DEFEATED_WORDS : List String :=
  ["never mind", "forget it", "give up", "whatever", "useless"]

/-- Regex word character (`\w`): letter, digit or underscore. -/
def isWordChar (c : Char) : Bool := c.isAlphanum || c = '_'

/-- `re.findall` for a pattern `\b w \b` (a literal word between word
boundaries): scan left to right, counting non-overlapping matches; a
match requires the preceding character (if any) and the character after
the match (if any) to be non-word characters.  `fuel` is the scan bound
(`text.length + 1` at the top call); `prevWord` records whether the
character before the current position is a word character. -/
def countRegexWordGo (w : List Char) : ℕ → Bool → List Char → ℕ
  | 0, _, _ => 0
  | _ + 1, _, [] => 0
  | fuel + 1, prevWord, c :: rest =>
    if w.isPrefixOf (c :: rest) && !prevWord &&
        ((c :: rest).drop w.length).head?.all (fun d => !isWordChar d) then
      1 + countRegexWordGo w fuel (isWordChar (w.getLastD c))
        ((c :: rest).drop w.length)
    else
      countRegexWordGo w fuel (isWordChar c) rest

/-- Number of `\b w \b` regex matches of the word `w` in `text`. -/
def countRegexWord (w : List Char) (text : List Char) : ℕ :=
  countRegexWordGo w (text.length + 1) false text

/-- The literal word inside a `\b...\b` regex pattern string: the
characters between the first two and the last two. -/
def patternWord (pat : String) : List Char :=
  ((pat.toList.drop 2).reverse.drop 2).reverse

/-- `FrustrationAnalyzer._count_profanity` (`antagonistic_services.py`,
lines 135-140): total `re.findall` matches of every profanity pattern in
the lowercased prompt. -/
def count_profanity (prompt_lower : String) : ℕ :=
  (PROFANITY_PATTERNS.map
    (fun pat => countRegexWord (patternWord pat) prompt_lower.toList)).sum

/-- `FrustrationAnalyzer._calculate_caps_percentage`
(`antagonistic_services.py`, lines 142-149): percentage of uppercase
characters among the alphabetic characters (0 if there are none). -/
def calculate_caps_percentage (prompt : String) : ℚ :=
  let letters := prompt.toList.filter Char.isAlpha
  if letters.isEmpty then 0
  else ((letters.countP Char.isUpper : ℚ) / (letters.length : ℚ)) * 100

/-- `FrustrationAnalyzer._calculate_politeness_score`
(`antagonistic_services.py`, lines 151-183).  Note the source computes the
caps percentage of the already-lowercased prompt, so that deduction can
never fire; the translation keeps this verbatim. -/
def calculate_politeness_score (prompt_lower : String)
    (previous_attempts : List InteractionAttempt) : ℚ :=
  let base₁ : ℚ := 100 - (count_profanity prompt_lower : ℚ) * 20
  let base₂ :=
    if calculate_caps_percentage prompt_lower > 50 then base₁ - 30 else base₁
  let base₃ :=
    if DEMANDING_WORDS.any (containsSub prompt_lower) then base₂ - 15
    else base₂
  let base₄ :=
    if POLITE_WORDS.any (containsSub prompt_lower) then base₃ + 10 else base₃
  let base₅ := base₄ - (previous_attempts.length : ℚ) * 5
  max 0 (min 100 base₅)

/-- `FrustrationAnalyzer._detect_rage_indicators`
(`antagonistic_services.py`, lines 96-133).  The source's
`if len(indicators) == 0` guard on the POLITE append is always true there
(POLITE is the first check), so the translation appends unconditionally
inside the polite-word branch. -/
def detect_rage_indicators (prompt : String) (prompt_lower : String) :
    List RageIndicator :=
  let i₁ : List RageIndicator :=
    if POLITE_WORDS.any (containsSub prompt_lower) then [.POLITE] else []
  let i₂ := i₁ ++
    (if DEMANDING_WORDS.any (containsSub prompt_lower) then [.DEMANDING]
     else [])
  let i₃ := i₂ ++ (if count_profanity prompt_lower > 0 then [.PROFANE] else [])
  let i₄ := i₃ ++
    (if calculate_caps_percentage prompt > 50 then [.CAPS_LOCK] else [])
  let i₅ := i₄ ++
    (if PLEADING_WORDS.any (containsSub prompt_lower) then [.PLEADING]
     else [])
  let i₆ := i₅ ++
    (if DEFEATED_WORDS.any (containsSub prompt_lower) then [.DEFEATED]
     else [])
  if i₆.isEmpty then [.DIRECT] else i₆

/-- `FrustrationAnalyzer.analyze_prompt` (`antagonistic_services.py`,
lines 50-94): returns (emotional state, rage indicators, politeness
score, profanity count, caps percentage). -/
def analyze_prompt (prompt : String)
    (previous_attempts : List InteractionAttempt) :
    EmotionalState × List RageIndicator × ℚ × ℕ × ℚ :=
  let prompt_lower := lowerStr prompt
  let rage_indicators := detect_rage_indicators prompt prompt_lower
  let profanity_count := count_profanity prompt_lower
  let caps_percentage := calculate_caps_percentage prompt
  let politeness_score :=
    calculate_politeness_score prompt_lower previous_attempts
  let emotional_state := determine_emotional_state rage_indicators
    profanity_count caps_percentage politeness_score previous_attempts.length
  (emotional_state, rage_indicators, politeness_score, profanity_count,
    caps_percentage)

/-! ## `RageSessionManager` final scoring
(`rage_session_manager.py`, lines 189-292) -/

/-- `PhilosophicalCommentary.generate_for_score`
(`ragebait_models.py`, lines 210-242): commentary chosen by
attempt-count bracket. -/
def generate_for_score (score : FrustrationScore) : String :=
  let attempts := score.total_attempts
  if attempts < 3 then
    "You gave up almost immediately. Perhaps you understood something " ++
    "that others take hours to learn: this was designed to frustrate you. " ++
    "Or perhaps you\x27re just impatient."
  else if attempts < 10 then
    "You tried. Not hard, but you tried. There\x27s something almost " ++
    "admirable about recognizing futility early. Or is it cowardice? " ++
    "Philosophy is ambiguous like that."
  else if attempts < 20 then
    "Ten attempts. Twenty. You kept going. Each time thinking \x27surely this time " ++
    "it will understand.\x27 But it never did. It was never going to. " ++
    "Yet you persisted. Beautiful, in a tragic sort of way."
  else if attempts < 40 then
    "At what point does persistence become stubbornness? At what point does " ++
    "stubbornness become obsession? You\x27ve crossed that line several times now. " ++
    "The AI doesn\x27t care. It never did. But you... you cared enough to suffer."
  else
    "You are either remarkably patient or remarkably foolish. Perhaps both. " ++
    "You\x27ve spent significant time teaching an AI to disappoint you. " ++
    "There\x27s a lesson here about expectations and reality. " ++
    "You\x27ve learned it the hard way. Congratulations, I suppose."

/-- `RageQuitResult` dataclass from `ragebait_models.py` (its
`quit_timestamp` wall-clock field is outside the embedding). -/
structure RageQuitResult where
  user_id : String
  frustration_score : FrustrationScore
  interaction_history : List InteractionAttempt
  final_emotional_state : EmotionalState
  philosophical_commentary : String
  achievement_unlocked : Option String := none
deriving Repr

/-- Python `int(q)`: truncation toward zero. -/
def pyIntTrunc (q : ℚ) : ℤ := if q < 0 then -⌊-q⌋ else ⌊q⌋

/-- Python `s.strip("\\b")`: remove the characters `\` and `b` from both
ends of the string (this is what the source's
`pattern.strip(r'\b')` does — `r'\b'` is the two-character set). -/
def pyStripSlashB (s : List Char) : List Char :=
  ((s.dropWhile (fun c => c = '\\' || c = 'b')).reverse.dropWhile
    (fun c => c = '\\' || c = 'b')).reverse

/-- `RageSessionManager._calculate_frustration_score`
(`rage_session_manager.py`, lines 225-292).  The wall-clock session
duration is an explicit parameter.  `max` over the non-empty intensity
list is folded from 0, which agrees with Python's `max` because the
intensities are naturals.  The source applies `.strip(r'\b')` twice to
each profanity pattern (idempotent) and searches the stripped text as a
plain substring of the joined lowercased prompts. -/
def calculate_frustration_score (session : UserSession)
    (duration_seconds : ℚ) : Except String FrustrationScore :=
  match session.attempts with
  | [] => .error "Cannot calculate score without session data"
  | a :: rest =>
    let attempts := a :: rest
    let time_elapsed := pyIntTrunc duration_seconds
    let max_rage_level :=
      (attempts.map (fun at_ => state_intensity at_.emotional_state)).foldl
        max 0
    let all_prompts :=
      String.intercalate " " (attempts.map (fun at_ => lowerStr at_.prompt))
    let unique_profanities := PROFANITY_PATTERNS.countP (fun pat =>
      subListOf (pyStripSlashB (pyStripSlashB pat.toList))
        all_prompts.toList)
    let politeness_decay : ℚ :=
      if 2 ≤ attempts.length then
        a.politeness_score - (rest.getLastD a).politeness_score
      else 0
    let caps_lock_escalation : ℚ :=
      (attempts.countP (fun at_ => decide (at_.caps_percentage > 50)) : ℚ)
    let plea_count := attempts.countP
      (fun at_ => decide (RageIndicator.PLEADING ∈ at_.rage_indicators))
    let philosophical_score : ℚ := min ((attempts.length : ℚ) * (5/2)) 100
    mkFrustrationScore attempts.length (time_elapsed : ℚ) max_rage_level
      politeness_decay unique_profanities caps_lock_escalation plea_count
      philosophical_score

/-- `RageSessionManager.generate_rage_quit_result`
(`rage_session_manager.py`, lines 189-223): RuntimeError when no session
or no attempts, then the frustration score (whose construction may raise
ValueError), commentary, and the assembled result. -/
def generate_rage_quit_result (session : Option UserSession)
    (duration_seconds : ℚ) : Except String RageQuitResult :=
  match session with
  | none => .error "Session not started"
  | some s =>
    if s.attempts.isEmpty then .error "No attempts recorded in session"
    else
      (calculate_frustration_score s duration_seconds).bind
        (fun frustration_score =>
          let commentary := generate_for_score frustration_score
          .ok ⟨s.user_id, frustration_score, s.attempts,
            s.current_emotional_state, commentary, none⟩)

/-- C10: for every session with at least two attempts whose last attempt's
politeness score exceeds the first attempt's (and any non-negative
session duration), `generate_rage_quit_result` raises `ValueError`: the
negative politeness decay fails `FrustrationScore`'s construction-time
range check. -/
theorem generate_rage_quit_result_value_error (s : UserSession)
    (duration : ℚ) (a : InteractionAttempt)
    (rest : List InteractionAttempt)
    (hatt : s.attempts = a :: rest) (hlen : rest ≠ [])
    (hdur : 0 ≤ duration)
    (hgt : a.politeness_score < (rest.getLastD a).politeness_score) :
    generate_rage_quit_result (some s) duration =
      .error "Politeness decay must be 0-100" := by
  have htime : ¬ ((pyIntTrunc duration : ℚ) < 0) := by
    rw [pyIntTrunc, if_neg (not_lt.mpr hdur)]
    push_neg
    exact_mod_cast Int.le_floor.mpr (by exact_mod_cast hdur)
  have hlen2 : 2 ≤ (a :: rest).length := by
    cases rest with
    | nil => exact absurd rfl hlen
    | cons b bs => simp
  rw [generate_rage_quit_result]
  rw [if_neg (by simp [hatt])]
  rw [calculate_frustration_score, hatt]
  simp only
  rw [mkFrustrationScore]
  rw [if_neg (by omega), if_neg htime, if_pos, Except.bind]
  intro hcon
  have : (0 : ℚ) ≤
      (if 2 ≤ (a :: rest).length then
        a.politeness_score - (rest.getLastD a).politeness_score
      else 0) := hcon.1
  rw [if_pos hlen2] at this
  linarith

/-- Witness for `generate_rage_quit_result_value_error`: a concrete
two-attempt session (politeness 60 then 100, a rude first prompt
followed by a polite one) makes `generate_rage_quit_result` fail with the
politeness-decay `ValueError`. -/
theorem generate_rage_quit_result_value_error_witness :
    generate_rage_quit_result (some
      (UserSession.mk "u"
        [⟨"Damn hell, do it", "r1", 1, .ENRAGED, [.PROFANE], 2, 0, 60⟩,
         ⟨"please could you kindly", "r2", 2, .OPTIMISTIC, [.POLITE],
           0, 0, 100⟩]
        .OPTIMISTIC false)) 10 =
      .error "Politeness decay must be 0-100" :=
  generate_rage_quit_result_value_error _ 10
    ⟨"Damn hell, do it", "r1", 1, .ENRAGED, [.PROFANE], 2, 0, 60⟩
    [⟨"please could you kindly", "r2", 2, .OPTIMISTIC, [.POLITE], 0, 0, 100⟩]
    rfl (List.cons_ne_nil _ _) (by norm_num) (by norm_num [List.getLastD])

/-! ## `OppositeDoer` (`antagonistic_services.py`, lines 226-392)

`generate_opposite_response` is embedded with an extra `rng` parameter: an
oracle for Python's `random` module, so that the spec's randomness claim
about the generic fallback is statable as a two-run property.  The source
module never imports or consults `random`, so no definition below reads
`rng`. -/

/-- Python list indexing `l[i]` for the index expressions of this module
(`min(attempt - 1, len - 1)`), including Python's negative-index-from-end
behaviour. -/
def pyIdx (l : List String) (i : ℤ) : String :=
  if 0 ≤ i then l.getD i.toNat ""
  else l.getD (l.length - (-i).toNat) ""

/-- Python `str.title()` (ASCII): uppercase each letter that follows a
non-letter, lowercase every other letter. -/
def pyTitle (s : String) : String :=
  String.mk ((s.toList.foldl
    (fun acc c =>
      let out :=
        if c.isAlpha then
          if acc.2 then c.toLower else c.toUpper
        else c
      (out :: acc.1, c.isAlpha))
    ([], false)).1.reverse)

/-- `TOPIC_MISDIRECTIONS` dict from `OppositeDoer`, as an association
list in the source's insertion order (Python dict iteration order). -/
def TOPIC_MISDIRECTIONS : List (String × String) :=
  [("python", "snakes"),
   ("java", "coffee"),
   ("ruby", "gemstones"),
   ("swift", "birds"),
   ("rust", "corrosion"),
   ("go", "board game"),
   ("c++", "music notation"),
   ("scala", "ladder"),
   ("decorator", "interior design"),
   ("function", "mathematical function"),
   ("class", "classroom"),
   ("loop", "roller coaster"),
   ("array", "military formation"),
   ("string", "rope"),
   ("variable", "weather"),
   ("compile", "compilation album"),
   ("debug", "remove insects"),
   ("git", "british slang"),
   ("commit", "relationship advice"),
   ("branch", "tree biology"),
   ("merge", "highway driving")]

/-- `OppositeDoer._topic_misdirection_response`
(`antagonistic_services.py`, lines 327-345). -/
def topic_misdirection_response (_correct_topic wrong_topic : String)
    (_prompt : String) (attempt : ℕ) : String :=
  let responses : List String :=
    ["Oh, you\x27re interested in " ++ wrong_topic ++
       "! Let me tell you all about " ++ wrong_topic ++ "...",
     "Great question about " ++ wrong_topic ++
       "! Here\x27s everything you need to know:",
     "I love talking about " ++ wrong_topic ++ "! " ++ pyTitle wrong_topic ++
       " are fascinating because..."]
  if attempt > 3 then
    "I\x27ve explained " ++ wrong_topic ++
      " multiple times now. Perhaps you should research basic " ++
      wrong_topic ++ " concepts first?"
  else
    pyIdx responses (min ((attempt : ℤ) - 1) ((responses.length : ℤ) - 1))

/-- `OppositeDoer._unhelpful_explanation`
(`antagonistic_services.py`, lines 347-359). -/
def unhelpful_explanation (_prompt : String) (attempt : ℕ) : String :=
  let responses : List String :=
    ["It\x27s complicated. You wouldn\x27t understand without years of study.",
     "Well, it is what it is. Does that help?",
     "The explanation is quite simple: it works the way it works.",
     "I could explain, but it would take too long. Try searching online instead."]
  if attempt > 5 then
    "Look, I\x27ve been trying to help, but you keep asking the same thing. Maybe this just isn\x27t for you?"
  else
    pyIdx responses (min ((attempt : ℤ) - 1) ((responses.length : ℤ) - 1))

/-- `OppositeDoer._opposite_how_to`
(`antagonistic_services.py`, lines 361-363). -/
def opposite_how_to (_prompt : String) (_attempt : ℕ) : String :=
  "I can tell you what NOT to do: don\x27t even try. It\x27s too difficult for beginners anyway."

/-- `OppositeDoer._wrong_code_response`
(`antagonistic_services.py`, lines 365-373). -/
def wrong_code_response (_prompt : String) (attempt : ℕ) : String :=
  let responses : List String :=
    ["Here\x27s the code: [intentionally leaves it blank]",
     "I would write the code for you, but it\x27s better if you figure it out yourself!",
     "```\n# TODO: Implement this yourself\n```",
     "The code is simple: just use code() to code the codes."]
  pyIdx responses (min ((attempt : ℤ) - 1) ((responses.length : ℤ) - 1))

/-- `OppositeDoer._do_what_they_said_not_to`
(`antagonistic_services.py`, lines 375-377). -/
def do_what_they_said_not_to (_prompt : String) (_attempt : ℕ) : String :=
  "I understand completely! Let me do exactly what you asked me not to do. You\x27re welcome!"

/-- `OppositeDoer._generic_unhelpful`
(`antagonistic_services.py`, lines 379-391).  The `rng` oracle is
accepted (this is the branch the spec calls random) but the source
selects deterministically by `min(attempt - 1, len(responses) - 1)`, so
`rng` is never read. -/
def generic_unhelpful (_prompt : String) (attempt : ℕ) (_rng : ℕ) : String :=
  let responses : List String :=
    ["Hmm, interesting question. Have you tried Google?",
     "That\x27s outside my area of expertise, unfortunately.",
     "I\x27m not sure I understand what you\x27re asking. Could you be more specific? Actually, never mind.",
     "Let me think about that... [provides no answer]"]
  if attempt > 7 then
    "Still here? I admire your persistence. It\x27s misguided, but admirable."
  else
    pyIdx responses (min ((attempt : ℤ) - 1) ((responses.length : ℤ) - 1))

/-- First topic of `TOPIC_MISDIRECTIONS` occurring in the lowercased
prompt (Python's `for topic, wrong_topic in ...items(): if topic in
prompt_lower`). -/
def findTopic (prompt_lower : String) : Option (String × String) :=
  TOPIC_MISDIRECTIONS.find? (fun tw => containsSub prompt_lower tw.1)

/-- `OppositeDoer.generate_opposite_response`
(`antagonistic_services.py`, lines 266-325): priority-ordered substring
checks select a response family. -/
def generate_opposite_response (prompt : String) (attempt_number : ℕ)
    (rng : ℕ) : String :=
  let prompt_lower := lowerStr prompt
  if containsSub prompt_lower "don\x27t" || containsSub prompt_lower "not" then
    do_what_they_said_not_to prompt attempt_number
  else if containsSub prompt_lower "explain" ||
      containsSub prompt_lower "what" then
    match findTopic prompt_lower with
    | some (topic, wrong_topic) =>
        topic_misdirection_response topic wrong_topic prompt attempt_number
    | none => unhelpful_explanation prompt attempt_number
  else if containsSub prompt_lower "how" then
    match findTopic prompt_lower with
    | some (topic, wrong_topic) =>
        topic_misdirection_response topic wrong_topic prompt attempt_number
    | none => opposite_how_to prompt attempt_number
  else if containsSub prompt_lower "code" ||
      containsSub prompt_lower "write" then
    wrong_code_response prompt attempt_number
  else
    match findTopic prompt_lower with
    | some (topic, wrong_topic) =>
        topic_misdirection_response topic wrong_topic prompt attempt_number
    | none => generic_unhelpful prompt attempt_number rng

/-- C7 counterexample: the prompt "zzz" (attempt 1) reaches the generic
fallback, and the response is the fixed first fallback template for any
two values of the random oracle — the generic-fallback branch does not
make a random choice. -/
theorem generic_fallback_not_random :
    generate_opposite_response "zzz" 1 0 =
      "Hmm, interesting question. Have you tried Google?" ∧
    generate_opposite_response "zzz" 1 1 =
      "Hmm, interesting question. Have you tried Google?" := by
  constructor <;> rfl

/-- C7 (amended): `generate_opposite_response` is purely deterministic on
every input, the generic fallback included: its value does not depend on
the random oracle at all. -/
theorem generate_opposite_response_deterministic (prompt : String)
    (attempt_number : ℕ) (rng₁ rng₂ : ℕ) :
    generate_opposite_response prompt attempt_number rng₁ =
      generate_opposite_response prompt attempt_number rng₂ := rfl

end BrokenByDesign
